import Mathlib

/-!
Shallow embedding of the delta-addressing and session-queue core of the
streamlit repository (src/lib/streamlit/DeltaGenerator.py and
src/lib/streamlit/Report.py), together with theorems settling the claims
about that core.

Conventions of the embedding:
* protobuf messages become inductive types / structures;
* the Python `ForwardMsg` oneof "type" becomes `MsgBody`; its member named
  "initialize" in the proto is the constructor `MsgBody.init` here;
* a marshalled data frame is opaque to this core (the spec places
  data-frame-to-wire conversion out of scope), so it is represented by a
  bare `Nat` token;
* the enqueue callable held by a `DeltaGenerator` is modelled by a Boolean
  `hasSink` flag on the handle plus an ambient sink function
  `enq : ForwardMsg → σ → σ × Bool` over an abstract sink state `σ`
  (mirroring "Function that (maybe) enqueues ForwardMsg's and returns True
  if enqueued or False if not"); within one session every handle shares
  the one sink, so this is faithful to the source;
* Python exceptions become `Except Err`;
* each operation returns an `OpOut` record carrying the Python return
  value, the post-call state of `self` (Python mutates the handle in
  place), the sink state after the call, and `sent`, the ordered list of
  arguments the operation passed to `self._enqueue` (at most one per
  operation in the source);
* the metrics counter side channel of the source is elided (out of scope).
-/

deriving instance DecidableEq for Except

namespace Streamlit

/-- BlockPath.container enum of BlockPath.proto: top-level output region. -/
inductive Container
  | MAIN
  | SIDEBAR
  deriving DecidableEq

/-- Text format enum of Text.proto (subset used by the text marshallers). -/
inductive TextFormat
  | PLAIN
  | MARKDOWN
  | JSON
  deriving DecidableEq

/-- The NewElement payload oneof "type". `unset` is a freshly constructed
proto whose oneof has not been set; `empty` is the placeholder variant set
by st.empty (element.empty.unused = True); the other variants carry the
fields the respective marshallers set. Only the variants a claim inspects
are distinguished. -/
inductive Element
  | unset
  | empty
  | text (format : TextFormat) (body : String)
  | button (id : String) (label : String) (value : Bool)
  | progress (value : Nat)
  deriving DecidableEq

/-- The Delta oneof "type" of Delta.proto: new_element, new_block, add_rows.
`add_rows` carries the marshalled data, the optional dataset name and the
has_name flag. -/
inductive Delta
  | new_element (el : Element)
  | new_block
  | add_rows (data : Option Nat) (name : String) (has_name : Bool)
  deriving DecidableEq

/-- ForwardMsg.metadata: parent_block (container and path), delta_id, and
the optional element_dimension_spec width/height (set independently in
_enqueue_new_element_delta, hence two options). -/
structure ForwardMsgMetadata where
  container : Container
  path : List Nat
  delta_id : Nat
  width : Option Nat
  height : Option Nat
  deriving DecidableEq

/-- The ForwardMsg oneof "type". The proto member spelled "initialize" is
`init` here; `upload_progress` stands for the transient event kinds
(upload_report_progress etc.) that _should_save_report_msg drops. -/
inductive MsgBody
  | init
  | new_report
  | delta (d : Delta)
  | upload_progress (pct : Nat)
  deriving DecidableEq

/-- One protocol envelope (ForwardMsg of ForwardMsg.proto). -/
structure ForwardMsg where
  metadata : ForwardMsgMetadata
  body : MsgBody
  deriving DecidableEq

/-- The DeltaGenerator handle state (DeltaGenerator.__init__):
enqueue sink (presence only, see module docstring), delta id counter,
is_root flag, container and path. -/
structure DeltaGenerator where
  hasSink : Bool
  id : Nat
  is_root : Bool
  container : Container
  path : List Nat
  deriving DecidableEq

/-- Python exception used by the generator, with its message. -/
inductive Err
  | typeErr (msg : String)
  | valueErr (msg : String)
  | runtimeErr (msg : String)
  | assertionErr (msg : String)
  deriving DecidableEq

/-- A marshaller's Python return value: None, the NoValue sentinel class,
or an actual widget value (the claims only need Boolean widget values). -/
inductive Rv
  | pyNone
  | noValue
  | val (b : Bool)
  deriving DecidableEq

/-- What a generator operation returns to the caller: a handle, Python
None, or a widget value. -/
inductive DGReturn
  | handle (dg : DeltaGenerator)
  | pyNone
  | val (b : Bool)
  deriving DecidableEq

/-- Result of one generator operation: the returned value, the handle
`self` after the call (Python mutates it in place), the sink state after
the call, and the list of messages passed to self._enqueue, in order. -/
structure OpOut (σ : Type) where
  ret : DGReturn
  self : DeltaGenerator
  state : σ
  sent : List ForwardMsg
  deriving DecidableEq

/-- value_or_dg of _enqueue_new_element_delta: NoValue maps to Python
None, Python None maps to the DeltaGenerator, a real value passes
through. -/
def value_or_dg (value : Rv) (dg : DeltaGenerator) : DGReturn :=
  match value with
  | Rv.noValue => DGReturn.pyNone
  | Rv.pyNone => DGReturn.handle dg
  | Rv.val b => DGReturn.val b

/-- The NewElement envelope _enqueue_new_element_delta builds: current
(container, path, id) of the handle plus the optional dimensions. -/
def new_element_msg (dg : DeltaGenerator) (el : Element)
    (elementWidth elementHeight : Option Nat) : ForwardMsg :=
  { metadata :=
      { container := dg.container, path := dg.path, delta_id := dg.id,
        width := elementWidth, height := elementHeight },
    body := MsgBody.delta (Delta.new_element el) }

/-- DeltaGenerator._enqueue_new_element_delta. The marshaller runs first
(so its exceptions propagate even for a null-sink handle); a null-sink
handle then returns without enqueueing; otherwise the envelope goes to the
sink and, on the root handle only, the counter is incremented after a
successful enqueue; the returned handle is a fresh leaf handle for a root
caller (note the source passes only (enqueue, id, is_root=False), so the
leaf gets the constructor defaults container=MAIN, path=()) and `self`
for a non-root caller. -/
def enqueue_new_element_delta {σ : Type} (enq : ForwardMsg → σ → σ × Bool)
    (dg : DeltaGenerator) (marshall : Element → Except Err (Element × Rv))
    (elementWidth elementHeight : Option Nat) (st : σ) :
    Except Err (OpOut σ) :=
  match marshall Element.unset with
  | Except.error e => Except.error e
  | Except.ok (el, rv) =>
    let msg := new_element_msg dg el elementWidth elementHeight
    if dg.hasSink = false then
      Except.ok { ret := value_or_dg rv dg, self := dg, state := st, sent := [] }
    else
      let output_dg : DeltaGenerator :=
        if dg.is_root then
          { hasSink := true, id := msg.metadata.delta_id, is_root := false,
            container := Container.MAIN, path := [] }
        else dg
      let sendResult := enq msg st
      if sendResult.2 = false then
        Except.ok { ret := value_or_dg rv dg, self := dg,
                    state := sendResult.1, sent := [msg] }
      else
        Except.ok { ret := value_or_dg rv output_dg,
                    self := if dg.is_root then { dg with id := dg.id + 1 } else dg,
                    state := sendResult.1, sent := [msg] }

/-- DeltaGenerator._block: a null-sink handle returns itself; otherwise a
NewBlock envelope at the current (container, path, id) goes to the sink
(its Boolean result is ignored), the counter is incremented, and a fresh
root handle with path extended by the id just used is returned. -/
def block {σ : Type} (enq : ForwardMsg → σ → σ × Bool)
    (dg : DeltaGenerator) (st : σ) : OpOut σ :=
  if dg.hasSink = false then
    { ret := DGReturn.handle dg, self := dg, state := st, sent := [] }
  else
    let msg : ForwardMsg :=
      { metadata :=
          { container := dg.container, path := dg.path, delta_id := dg.id,
            width := none, height := none },
        body := MsgBody.delta Delta.new_block }
    let new_block_dg : DeltaGenerator :=
      { hasSink := true, id := 0, is_root := true,
        container := dg.container, path := dg.path ++ [dg.id] }
    let sendResult := enq msg st
    { ret := DGReturn.handle new_block_dg,
      self := { dg with id := dg.id + 1 },
      state := sendResult.1, sent := [msg] }

/-- The AddRows envelope: the handle's fixed (container, path, id); the
name and has_name fields are set only when the chosen name is nonempty
(Python: if name: ...). -/
def add_rows_msg (dg : DeltaGenerator) (data : Option Nat) (name : String) :
    ForwardMsg :=
  { metadata :=
      { container := dg.container, path := dg.path, delta_id := dg.id,
        width := none, height := none },
    body := MsgBody.delta
      (if name = "" then Delta.add_rows data "" false
       else Delta.add_rows data name true) }

/-- The tail of add_rows once the dataset and name are chosen: build the
envelope, pass it to the sink (result ignored), return self; the id
counter is never touched. -/
def add_rows_send {σ : Type} (enq : ForwardMsg → σ → σ × Bool)
    (dg : DeltaGenerator) (data : Option Nat) (name : String) (st : σ) :
    Except Err (OpOut σ) :=
  let msg := add_rows_msg dg data name
  let sendResult := enq msg st
  Except.ok { ret := DGReturn.handle dg, self := dg,
              state := sendResult.1, sent := [msg] }

/-- DeltaGenerator.add_rows. kwargs is the list of named datasets. The
null-sink check precedes the root assertion; then: positional data with no
kwargs uses name ""; exactly one kwarg wins regardless of the positional
argument (name, data = kwargs.popitem()); anything else raises the arity
RuntimeError. -/
def add_rows {σ : Type} (enq : ForwardMsg → σ → σ × Bool)
    (dg : DeltaGenerator) (data : Option Nat)
    (kwargs : List (String × Nat)) (st : σ) : Except Err (OpOut σ) :=
  if dg.hasSink = false then
    Except.ok { ret := DGReturn.handle dg, self := dg, state := st, sent := [] }
  else if dg.is_root then
    Except.error (Err.assertionErr "Only existing elements can add_rows.")
  else
    match data, kwargs with
    | some d, [] => add_rows_send enq dg (some d) "" st
    | _, [(nm, d)] => add_rows_send enq dg (some d) nm st
    | _, _ =>
      Except.error (Err.runtimeErr
        "Wrong number of arguments to add_rows(). Method requires exactly one dataset")

/-- The widget identity function of the _widget decorator:
widget_id = "%s-%s" % (method.__name__, label). -/
def widget_id (kind label : String) : String := kind ++ "-" ++ label

/-- The per-session widget record store (ctx.widgets): last interaction
value by widget id; Boolean values suffice for the widgets the claims
inspect. The whole report context may be absent (get_report_ctx() may
return None). -/
abbrev WidgetStore := String → Option Bool

/-- ui_value = ctx.widgets.get_widget_value(widget_id) if ctx else None. -/
def widget_lookup (ctx : Option WidgetStore) (wid : String) : Option Bool :=
  match ctx with
  | none => none
  | some widgets => widgets wid

/-- The marshaller the _widget wrapper builds for DeltaGenerator.button:
computes the widget id from (kind "button", label), stores it in the
element together with label and value=False, and returns the resolved
current value (ui value if present, else the pass-through default False). -/
def button_marshall (label : String) (ctx : Option WidgetStore) :
    Element → Except Err (Element × Rv) := fun _el =>
  let wid := widget_id "button" label
  let ui_value := widget_lookup ctx wid
  let current_value := match ui_value with
    | none => false
    | some b => b
  Except.ok (Element.button wid label false, Rv.val current_value)

/-- DeltaGenerator.button (through _widget and _with_element). -/
def button {σ : Type} (enq : ForwardMsg → σ → σ × Bool)
    (dg : DeltaGenerator) (label : String) (ctx : Option WidgetStore)
    (st : σ) : Except Err (OpOut σ) :=
  enqueue_new_element_delta enq dg (button_marshall label ctx) none none st

/-- The argument of DeltaGenerator.progress, tagged by its Python type
name (type(value).__name__): a float (modelled by a rational), an int, or
anything else. -/
inductive ProgressValue
  | pfloat (q : Rat)
  | pint (n : Int)
  | pother (type_name : String)

/-- The marshaller of DeltaGenerator.progress: a float must lie in
[0.0, 1.0] (stored as int(value * 100), which truncates; the %f number
formatting of the float message is elided), an int must lie in [0, 100],
anything else is a TypeError. It returns Python None. -/
def progress_marshall (value : ProgressValue) :
    Element → Except Err (Element × Rv) := fun _el =>
  match value with
  | ProgressValue.pfloat q =>
    if 0 ≤ q ∧ q ≤ 1 then
      Except.ok (Element.progress (q * 100).floor.toNat, Rv.pyNone)
    else
      Except.error (Err.valueErr "Progress Value has invalid value [0.0, 1.0]")
  | ProgressValue.pint n =>
    if 0 ≤ n ∧ n ≤ 100 then
      Except.ok (Element.progress n.toNat, Rv.pyNone)
    else
      Except.error (Err.valueErr
        ("Progress Value has invalid value [0, 100]: " ++ toString n))
  | ProgressValue.pother t =>
    Except.error (Err.typeErr ("Progress Value has invalid type: " ++ t))

/-- DeltaGenerator.progress (through _with_element). -/
def progress {σ : Type} (enq : ForwardMsg → σ → σ × Bool)
    (dg : DeltaGenerator) (value : ProgressValue) (st : σ) :
    Except Err (OpOut σ) :=
  enqueue_new_element_delta enq dg (progress_marshall value) none none st

/-- The marshaller of DeltaGenerator.empty: sets the empty placeholder
variant (element.empty.unused = True) and returns Python None. -/
def empty_marshall : Element → Except Err (Element × Rv) := fun _el =>
  Except.ok (Element.empty, Rv.pyNone)

/-- The canonical accepting sink: appends every message to a list queue
and reports success, as the session's enqueue does. -/
def listEnq (msg : ForwardMsg) (q : List ForwardMsg) :
    List ForwardMsg × Bool := (q ++ [msg], true)

/-- N sequential new_element calls with one marshaller, threading the
mutated root handle and the sink state, collecting the messages passed to
the sink in issuance order. -/
def run_new_elements {σ : Type} (enq : ForwardMsg → σ → σ × Bool)
    (marshall : Element → Except Err (Element × Rv)) :
    Nat → DeltaGenerator → σ →
    Except Err (DeltaGenerator × σ × List ForwardMsg)
  | 0, dg, st => Except.ok (dg, st, [])
  | n + 1, dg, st =>
    match enqueue_new_element_delta enq dg marshall none none st with
    | Except.error e => Except.error e
    | Except.ok out =>
      match run_new_elements enq marshall n out.self out.state with
      | Except.error e => Except.error e
      | Except.ok (dg2, st2, sent2) => Except.ok (dg2, st2, out.sent ++ sent2)

/-- Modelled from the spec: streamlit/ReportQueue.py is not under src/
(only Report.py, its caller, is). Per section 4.1 of the spec, a queue is
an ordered sequence of envelopes; enqueue appends, coalescing a Delta that
replaces an already-queued delta at the same (container, path, delta_id)
address (last write wins); `initial` records the first-ever enqueued
message, which get_initial_msg returns and clear does not forget. -/
structure ReportQueue where
  messages : List ForwardMsg
  initial : Option ForwardMsg
  deriving DecidableEq

/-- The coalescing address of a message: its (container, path, delta_id),
defined only for Delta messages. -/
def msg_address (m : ForwardMsg) : Option (Container × List Nat × Nat) :=
  match m.body with
  | MsgBody.delta _ =>
    some (m.metadata.container, m.metadata.path, m.metadata.delta_id)
  | _ => none

/-- Modelled from the spec: ReportQueue.enqueue (section 4.1): appends,
except that a Delta replacing a queued delta at the same address is
coalesced in place; the first-ever enqueued message is recorded. -/
def ReportQueue.enqueue (q : ReportQueue) (msg : ForwardMsg) : ReportQueue :=
  let ms :=
    match msg_address msg with
    | some addr =>
      if q.messages.any (fun m => msg_address m = some addr) then
        q.messages.map (fun m => if msg_address m = some addr then msg else m)
      else q.messages ++ [msg]
    | none => q.messages ++ [msg]
  { messages := ms,
    initial :=
      match q.initial with
      | none => some msg
      | some m => some m }

/-- Modelled from the spec: ReportQueue.clear empties without returning;
the first-ever enqueued message remains known to get_initial_msg. -/
def ReportQueue.clear (_q : ReportQueue) : ReportQueue :=
  { messages := [], initial := _q.initial }

/-- Modelled from the spec: ReportQueue.get_initial_msg returns the
first-ever enqueued message, or none. -/
def ReportQueue.get_initial_msg (q : ReportQueue) : Option ForwardMsg :=
  q.initial

/-- Modelled from the spec: ReportQueue.flush atomically returns and
empties the full ordered content. -/
def ReportQueue.flush (q : ReportQueue) : List ForwardMsg × ReportQueue :=
  (q.messages, q.clear)

/-- A fresh, never-used queue. -/
def ReportQueue.empty : ReportQueue := { messages := [], initial := none }

/-- The dual-queue session state of Report (Report.py): a master queue and
a browser queue. -/
structure Report where
  master_queue : ReportQueue
  browser_queue : ReportQueue
  deriving DecidableEq

/-- A fresh Report: both queues empty (Report.__init__). -/
def Report.empty : Report :=
  { master_queue := ReportQueue.empty, browser_queue := ReportQueue.empty }

/-- Report.enqueue: pushes the message into both queues. -/
def Report.enqueue (r : Report) (msg : ForwardMsg) : Report :=
  { master_queue := r.master_queue.enqueue msg,
    browser_queue := r.browser_queue.enqueue msg }

/-- Report.clear: the master queue retains its initial message (it is
re-enqueued after the clear when present); the browser queue is completely
cleared. -/
def Report.clear (r : Report) : Report :=
  let initial_msg := r.master_queue.get_initial_msg
  let master1 := r.master_queue.clear
  let master2 :=
    match initial_msg with
    | some m => master1.enqueue m
    | none => master1
  { master_queue := master2, browser_queue := r.browser_queue.clear }

/-- Report.flush_browser_queue: drains only the browser queue. -/
def Report.flush_browser_queue (r : Report) : List ForwardMsg × Report :=
  let flushed := r.browser_queue.flush
  (flushed.1, { master_queue := r.master_queue, browser_queue := flushed.2 })

/-- One session-level action touching the queues. -/
inductive ReportOp
  | enq (msg : ForwardMsg)
  | clear

/-- Apply one session action. -/
def Report.apply_op (r : Report) : ReportOp → Report
  | ReportOp.enq msg => r.enqueue msg
  | ReportOp.clear => r.clear

/-- Run a whole history of session actions from a given session state. -/
def Report.run (r : Report) (ops : List ReportOp) : Report :=
  ops.foldl Report.apply_op r

/-- The first message ever enqueued over a history of actions. -/
def first_enqueued (ops : List ReportOp) : Option ForwardMsg :=
  (ops.filterMap (fun op =>
    match op with
    | ReportOp.enq m => some m
    | ReportOp.clear => none)).head?

/-- Report._should_save_report_msg: keep initialize, new_report and delta
messages, but strip a NewElement delta whose payload is the empty
placeholder variant; drop transient event kinds. -/
def should_save_report_msg (msg : ForwardMsg) : Bool :=
  match msg.body with
  | MsgBody.delta (Delta.new_element Element.empty) => false
  | MsgBody.init => true
  | MsgBody.new_report => true
  | MsgBody.delta _ => true
  | MsgBody.upload_progress _ => false

/-- The renumbering loop of serialize_final_report_to_files: walk the
surviving messages with a running message index `idx`, the index of the
first delta seen `fdi`, and the number of deltas seen `nd`; every delta
message gets delta_id := nd. Returns the renumbered list, the final first
delta index and the delta count. -/
def renumber_deltas : List ForwardMsg → Nat → Nat → Nat →
    List ForwardMsg × Nat × Nat
  | [], _idx, fdi, nd => ([], fdi, nd)
  | m :: rest, idx, fdi, nd =>
    match m.body with
    | MsgBody.delta d =>
      let m2 : ForwardMsg :=
        { metadata := { m.metadata with delta_id := nd },
          body := MsgBody.delta d }
      let fdi2 := if nd = 0 then idx else fdi
      let r := renumber_deltas rest (idx + 1) fdi2 (nd + 1)
      (m2 :: r.1, r.2)
    | _ =>
      let r := renumber_deltas rest (idx + 1) fdi nd
      (m :: r.1, r.2)

/-- The manifest value object built by Report._build_manifest. -/
structure Manifest where
  name : String
  numMessages : Option Nat
  firstDeltaIndex : Option Nat
  numDeltas : Option Nat
  serverStatus : String
  configuredServerAddress : Option String
  externalServerIP : Option String
  internalServerIP : Option String
  serverPort : Nat
  deriving DecidableEq

/-- Report._build_manifest with status "done": message and delta counts
set, network addresses absent, configured address absent (only set when
running). -/
def build_manifest_done (nm : String) (num_messages first_delta_index
    num_deltas serverPort : Nat) : Manifest :=
  { name := nm, numMessages := some num_messages,
    firstDeltaIndex := some first_delta_index,
    numDeltas := some num_deltas, serverStatus := "done",
    configuredServerAddress := none, externalServerIP := none,
    internalServerIP := none, serverPort := serverPort }

/-- A serialized export artifact: either one serialized ForwardMsg (a .pb
payload) or the manifest json. -/
inductive FileContent
  | pb (msg : ForwardMsg)
  | manifest (m : Manifest)
  deriving DecidableEq

/-- The enumerate loop building the (storage key, payload) pair list for
the surviving messages: reports/(id)/(idx).pb. -/
def message_tuples_from (report_id : String) :
    Nat → List ForwardMsg → List (String × FileContent)
  | _, [] => []
  | idx, m :: rest =>
    ("reports/" ++ report_id ++ "/" ++ toString idx ++ ".pb",
      FileContent.pb m) :: message_tuples_from report_id (idx + 1) rest

/-- Report.serialize_final_report_to_files: filter the master queue's
content with should_save_report_msg, renumber the surviving deltas'
delta_id contiguously from 0, build the done-manifest, and return the
message pairs followed by exactly one manifest pair (the manifest must
come last). -/
def serialize_final_report_to_files (report_id nm : String)
    (serverPort : Nat) (master_queue : List ForwardMsg) :
    List (String × FileContent) :=
  let messages := master_queue.filter should_save_report_msg
  let r := renumber_deltas messages 0 0 0
  let manifest := build_manifest_done nm r.1.length r.2.1 r.2.2 serverPort
  let message_tuples := message_tuples_from report_id 0 r.1
  let manifest_tuples :=
    [("reports/" ++ report_id ++ "/manifest.json",
      FileContent.manifest manifest)]
  message_tuples ++ manifest_tuples

/-- A sink that rejects every message (the enqueue callable returns False),
leaving its queue unchanged. -/
def rejectEnq (_msg : ForwardMsg) (q : List ForwardMsg) :
    List ForwardMsg × Bool := (q, false)

/-- String append cancels on the right. -/
lemma string_append_cancel_right (a b t : String) (h : a ++ t = b ++ t) :
    a = b := by
  obtain ⟨d1⟩ := a
  obtain ⟨d2⟩ := b
  have hd := congrArg String.data h
  simp only [String.data_append] at hd
  have h2 : d1 = d2 := List.append_cancel_right hd
  rw [h2]

/-- Claim C8: the widget-identity function is deterministic in
(widget-kind, label): equal kind and label give the same widget id, and
different kinds with the same label give different widget ids. -/
theorem widget_identity_stability :
    (∀ kind1 label1 kind2 label2 : String, kind1 = kind2 → label1 = label2 →
      widget_id kind1 label1 = widget_id kind2 label2) ∧
    (∀ kind1 kind2 label : String, kind1 ≠ kind2 →
      widget_id kind1 label ≠ widget_id kind2 label) := by
  constructor
  · intro k1 l1 k2 l2 hk hl
    rw [hk, hl]
  · intro k1 k2 l hne heq
    apply hne
    simp only [widget_id] at heq
    have h1 : k1 ++ "-" = k2 ++ "-" := string_append_cancel_right _ _ l heq
    exact string_append_cancel_right _ _ "-" h1

/-- Witness for C8 at kind "button" and "checkbox", label "Go". -/
theorem widget_identity_stability_witness :
    widget_id "button" "Go" = widget_id "button" "Go" ∧
    widget_id "button" "Go" ≠ widget_id "checkbox" "Go" :=
  ⟨widget_identity_stability.1 "button" "Go" "button" "Go" rfl rfl,
   widget_identity_stability.2 "button" "checkbox" "Go" (by decide)⟩

/-- Claim C2, evaluated at the failing input: a root handle on the SIDEBAR
container creates its element there, but the leaf handle new_element
returns is built with the constructor defaults (container MAIN, path ()),
so the following add_rows envelope is addressed to (MAIN, (), 0) and not
to the sidebar element just created. -/
theorem leaf_handle_container_reset :
    enqueue_new_element_delta listEnq
        ⟨true, 0, true, Container.SIDEBAR, []⟩ empty_marshall none none [] =
      Except.ok
        ⟨DGReturn.handle ⟨true, 0, false, Container.MAIN, []⟩,
         ⟨true, 1, true, Container.SIDEBAR, []⟩,
         [⟨⟨Container.SIDEBAR, [], 0, none, none⟩,
           MsgBody.delta (Delta.new_element Element.empty)⟩],
         [⟨⟨Container.SIDEBAR, [], 0, none, none⟩,
           MsgBody.delta (Delta.new_element Element.empty)⟩]⟩ ∧
    add_rows listEnq ⟨true, 0, false, Container.MAIN, []⟩ (some 1) []
        [⟨⟨Container.SIDEBAR, [], 0, none, none⟩,
          MsgBody.delta (Delta.new_element Element.empty)⟩] =
      Except.ok
        ⟨DGReturn.handle ⟨true, 0, false, Container.MAIN, []⟩,
         ⟨true, 0, false, Container.MAIN, []⟩,
         [⟨⟨Container.SIDEBAR, [], 0, none, none⟩,
           MsgBody.delta (Delta.new_element Element.empty)⟩,
          ⟨⟨Container.MAIN, [], 0, none, none⟩,
           MsgBody.delta (Delta.add_rows (some 1) "" false)⟩],
         [⟨⟨Container.MAIN, [], 0, none, none⟩,
           MsgBody.delta (Delta.add_rows (some 1) "" false)⟩]⟩ ∧
    Container.MAIN ≠ Container.SIDEBAR := by
  refine ⟨by decide, by decide, by decide⟩

/-- Claim C5, counterexample: add_rows with a positional dataset together
with one named dataset does not raise the arity error; it silently uses
the named dataset and enqueues it. -/
theorem add_rows_positional_plus_named_ok :
    add_rows listEnq ⟨true, 4, false, Container.MAIN, []⟩
        (some 1) [("other", 2)] [] =
      Except.ok
        ⟨DGReturn.handle ⟨true, 4, false, Container.MAIN, []⟩,
         ⟨true, 4, false, Container.MAIN, []⟩,
         [⟨⟨Container.MAIN, [], 4, none, none⟩,
           MsgBody.delta (Delta.add_rows (some 2) "other" true)⟩],
         [⟨⟨Container.MAIN, [], 4, none, none⟩,
           MsgBody.delta (Delta.add_rows (some 2) "other" true)⟩]⟩ := by
  decide

/-- Claim C5 as amended: on a non-root handle with a sink, add_rows raises
the arity error exactly when no dataset at all or two or more named
datasets are supplied; one positional dataset, one named dataset, or a
positional together with exactly one named dataset (the named one wins)
all succeed and enqueue one AddRows envelope. -/
theorem add_rows_arity_amended {σ : Type} (enq : ForwardMsg → σ → σ × Bool)
    (dg : DeltaGenerator) (hsink : dg.hasSink = true)
    (hroot : dg.is_root = false) (st : σ) :
    (add_rows enq dg none [] st =
      Except.error (Err.runtimeErr
        "Wrong number of arguments to add_rows(). Method requires exactly one dataset")) ∧
    (∀ d : Nat, add_rows enq dg (some d) [] st =
      Except.ok ⟨DGReturn.handle dg, dg,
        (enq (add_rows_msg dg (some d) "") st).1,
        [add_rows_msg dg (some d) ""]⟩) ∧
    (∀ (nm : String) (d : Nat), add_rows enq dg none [(nm, d)] st =
      Except.ok ⟨DGReturn.handle dg, dg,
        (enq (add_rows_msg dg (some d) nm) st).1,
        [add_rows_msg dg (some d) nm]⟩) ∧
    (∀ (d : Nat) (nm : String) (d2 : Nat),
      add_rows enq dg (some d) [(nm, d2)] st =
        Except.ok ⟨DGReturn.handle dg, dg,
          (enq (add_rows_msg dg (some d2) nm) st).1,
          [add_rows_msg dg (some d2) nm]⟩) ∧
    (∀ (data : Option Nat) (k1 k2 : String × Nat) (rest : List (String × Nat)),
      add_rows enq dg data (k1 :: k2 :: rest) st =
        Except.error (Err.runtimeErr
          "Wrong number of arguments to add_rows(). Method requires exactly one dataset")) := by
  refine ⟨?_, ?_, ?_, ?_, ?_⟩
  · simp [add_rows, hsink, hroot]
  · intro d
    simp [add_rows, hsink, hroot, add_rows_send]
  · intro nm d
    simp [add_rows, hsink, hroot, add_rows_send]
  · intro d nm d2
    simp [add_rows, hsink, hroot, add_rows_send]
  · intro data k1 k2 rest
    cases data <;> simp [add_rows, hsink, hroot]

/-- Witness for the amended C5 on a concrete leaf handle with the list
sink. -/
theorem add_rows_arity_amended_witness :
    (add_rows listEnq ⟨true, 4, false, Container.MAIN, []⟩ none [] [] =
      Except.error (Err.runtimeErr
        "Wrong number of arguments to add_rows(). Method requires exactly one dataset")) ∧
    (add_rows listEnq ⟨true, 4, false, Container.MAIN, []⟩ (some 1) [] [] =
      Except.ok ⟨DGReturn.handle ⟨true, 4, false, Container.MAIN, []⟩,
        ⟨true, 4, false, Container.MAIN, []⟩,
        (listEnq (add_rows_msg ⟨true, 4, false, Container.MAIN, []⟩ (some 1) "") []).1,
        [add_rows_msg ⟨true, 4, false, Container.MAIN, []⟩ (some 1) ""]⟩) ∧
    (add_rows listEnq ⟨true, 4, false, Container.MAIN, []⟩ none [("a", 2)] [] =
      Except.ok ⟨DGReturn.handle ⟨true, 4, false, Container.MAIN, []⟩,
        ⟨true, 4, false, Container.MAIN, []⟩,
        (listEnq (add_rows_msg ⟨true, 4, false, Container.MAIN, []⟩ (some 2) "a") []).1,
        [add_rows_msg ⟨true, 4, false, Container.MAIN, []⟩ (some 2) "a"]⟩) ∧
    (add_rows listEnq ⟨true, 4, false, Container.MAIN, []⟩ (some 1)
        [("a", 2), ("b", 3)] [] =
      Except.error (Err.runtimeErr
        "Wrong number of arguments to add_rows(). Method requires exactly one dataset")) := by
  obtain ⟨h1, h2, h3, _h4, h5⟩ :=
    add_rows_arity_amended listEnq ⟨true, 4, false, Container.MAIN, []⟩
      rfl rfl []
  exact ⟨h1, h2 1, h3 "a" 2, h5 (some 1) ("a", 2) ("b", 3) []⟩

/-- Claim C9, counterexample: on a root handle whose sink is null,
add_rows does not signal any error; it short-circuits, returning the
handle and enqueueing nothing. -/
theorem add_rows_null_root_no_error :
    add_rows listEnq ⟨false, 0, true, Container.MAIN, []⟩ (some 1) [] [] =
      Except.ok ⟨DGReturn.handle ⟨false, 0, true, Container.MAIN, []⟩,
        ⟨false, 0, true, Container.MAIN, []⟩, [], []⟩ := by
  decide

/-- Claim C9 as amended: on a root handle whose sink is present, add_rows
signals the usage/invariant assertion error, whatever the arguments, and
enqueues nothing. -/
theorem add_rows_root_error_amended {σ : Type}
    (enq : ForwardMsg → σ → σ × Bool) (dg : DeltaGenerator)
    (hsink : dg.hasSink = true) (hroot : dg.is_root = true)
    (data : Option Nat) (kwargs : List (String × Nat)) (st : σ) :
    add_rows enq dg data kwargs st =
      Except.error (Err.assertionErr "Only existing elements can add_rows.") := by
  simp [add_rows, hsink, hroot]

/-- Witness for the amended C9 on a concrete sinked root handle. -/
theorem add_rows_root_error_amended_witness :
    add_rows listEnq ⟨true, 0, true, Container.MAIN, []⟩ (some 1) [] [] =
      Except.error (Err.assertionErr "Only existing elements can add_rows.") :=
  add_rows_root_error_amended listEnq ⟨true, 0, true, Container.MAIN, []⟩
    rfl rfl (some 1) [] []

/-- Claim C7: every operation on a null-sink handle enqueues nothing and
returns the value the non-null contract prescribes: new_block and
add_rows return the handle itself, new_element returns value_or_dg of the
marshaller's value over the unchanged handle, and button returns the
pass-through default false when no prior widget value is stored. -/
theorem null_sink_noop {σ : Type} (enq : ForwardMsg → σ → σ × Bool)
    (dg : DeltaGenerator) (hdg : dg.hasSink = false) (st : σ) :
    block enq dg st = ⟨DGReturn.handle dg, dg, st, []⟩ ∧
    (∀ (data : Option Nat) (kwargs : List (String × Nat)),
      add_rows enq dg data kwargs st =
        Except.ok ⟨DGReturn.handle dg, dg, st, []⟩) ∧
    (∀ (marshall : Element → Except Err (Element × Rv)) (el : Element) (rv : Rv),
      marshall Element.unset = Except.ok (el, rv) →
        enqueue_new_element_delta enq dg marshall none none st =
          Except.ok ⟨value_or_dg rv dg, dg, st, []⟩) ∧
    (∀ (label : String) (ctx : Option WidgetStore),
      widget_lookup ctx (widget_id "button" label) = none →
        button enq dg label ctx st =
          Except.ok ⟨DGReturn.val false, dg, st, []⟩) := by
  refine ⟨?_, ?_, ?_, ?_⟩
  · simp [block, hdg]
  · intro data kwargs
    simp [add_rows, hdg]
  · intro marshall el rv hm
    simp [enqueue_new_element_delta, hm, hdg]
  · intro label ctx hctx
    simp [button, enqueue_new_element_delta, button_marshall, hctx, hdg,
      value_or_dg]

/-- Witness for C7 on a concrete null-sink handle. -/
theorem null_sink_noop_witness :
    block listEnq ⟨false, 5, false, Container.MAIN, []⟩ [] =
      ⟨DGReturn.handle ⟨false, 5, false, Container.MAIN, []⟩,
       ⟨false, 5, false, Container.MAIN, []⟩, [], []⟩ ∧
    add_rows listEnq ⟨false, 5, false, Container.MAIN, []⟩ (some 1) [] [] =
      Except.ok ⟨DGReturn.handle ⟨false, 5, false, Container.MAIN, []⟩,
        ⟨false, 5, false, Container.MAIN, []⟩, [], []⟩ ∧
    enqueue_new_element_delta listEnq ⟨false, 5, false, Container.MAIN, []⟩
        empty_marshall none none [] =
      Except.ok ⟨value_or_dg Rv.pyNone ⟨false, 5, false, Container.MAIN, []⟩,
        ⟨false, 5, false, Container.MAIN, []⟩, [], []⟩ ∧
    button listEnq ⟨false, 5, false, Container.MAIN, []⟩ "x" none [] =
      Except.ok ⟨DGReturn.val false, ⟨false, 5, false, Container.MAIN, []⟩,
        [], []⟩ := by
  obtain ⟨h1, h2, h3, h4⟩ :=
    null_sink_noop listEnq ⟨false, 5, false, Container.MAIN, []⟩ rfl []
  exact ⟨h1, h2 (some 1) [], h3 empty_marshall Element.empty Rv.pyNone rfl,
    h4 "x" none rfl⟩

/-- Claim C10: progress runs its marshaller (and hence its argument
validation) before the null-sink short-circuit: an out-of-range int and a
non-int non-float value raise the same range and type errors on every
handle, sinked or not; an in-range int on a null-sink handle succeeds and
enqueues nothing. -/
theorem progress_validation_null_sink {σ : Type}
    (enq : ForwardMsg → σ → σ × Bool) (dg : DeltaGenerator) (st : σ) :
    (∀ n : Int, ¬(0 ≤ n ∧ n ≤ 100) →
      progress enq dg (ProgressValue.pint n) st =
        Except.error (Err.valueErr
          ("Progress Value has invalid value [0, 100]: " ++ toString n))) ∧
    (∀ t : String, progress enq dg (ProgressValue.pother t) st =
      Except.error (Err.typeErr ("Progress Value has invalid type: " ++ t))) ∧
    (∀ n : Int, (0 ≤ n ∧ n ≤ 100) → dg.hasSink = false →
      progress enq dg (ProgressValue.pint n) st =
        Except.ok ⟨DGReturn.handle dg, dg, st, []⟩) := by
  refine ⟨?_, ?_, ?_⟩
  · intro n hn
    simp [progress, enqueue_new_element_delta, progress_marshall, hn]
  · intro t
    simp [progress, enqueue_new_element_delta, progress_marshall]
  · intro n hn hdg
    simp [progress, enqueue_new_element_delta, progress_marshall, hn, hdg,
      value_or_dg]

/-- Witness for C10 on a concrete null-sink handle: value 150 raises the
range error, a string value raises the type error, value 50 succeeds
without enqueueing. -/
theorem progress_validation_null_sink_witness :
    progress listEnq ⟨false, 0, true, Container.MAIN, []⟩
        (ProgressValue.pint 150) [] =
      Except.error (Err.valueErr
        ("Progress Value has invalid value [0, 100]: " ++ toString (150 : Int))) ∧
    progress listEnq ⟨false, 0, true, Container.MAIN, []⟩
        (ProgressValue.pother "str") [] =
      Except.error (Err.typeErr ("Progress Value has invalid type: " ++ "str")) ∧
    progress listEnq ⟨false, 0, true, Container.MAIN, []⟩
        (ProgressValue.pint 50) [] =
      Except.ok ⟨DGReturn.handle ⟨false, 0, true, Container.MAIN, []⟩,
        ⟨false, 0, true, Container.MAIN, []⟩, [], []⟩ := by
  obtain ⟨h1, h2, h3⟩ :=
    progress_validation_null_sink listEnq ⟨false, 0, true, Container.MAIN, []⟩
      ([] : List ForwardMsg)
  exact ⟨h1 150 (by decide), h2 "str", h3 50 (by decide) rfl⟩

/-- Claim C3: new_block on a root handle at path () with counter 2
enqueues a NewBlock envelope addressed (path (), delta_id 2) in the same
container, increments the parent's counter to 3, and returns a child root
handle with the same container, path (2) and counter 0; a following
new_element on that child passes to the sink an envelope with delta_id 0
and path (2). -/
theorem block_nesting {σ : Type} (enq : ForwardMsg → σ → σ × Bool)
    (hacc : ∀ m s, (enq m s).2 = true) (c : Container) (st : σ)
    (marshall : Element → Except Err (Element × Rv)) (el : Element) (rv : Rv)
    (hm : marshall Element.unset = Except.ok (el, rv)) :
    block enq ⟨true, 2, true, c, []⟩ st =
      ⟨DGReturn.handle ⟨true, 0, true, c, [2]⟩, ⟨true, 3, true, c, []⟩,
       (enq ⟨⟨c, [], 2, none, none⟩, MsgBody.delta Delta.new_block⟩ st).1,
       [⟨⟨c, [], 2, none, none⟩, MsgBody.delta Delta.new_block⟩]⟩ ∧
    (∀ st2 : σ, ∃ out : OpOut σ,
      enqueue_new_element_delta enq ⟨true, 0, true, c, [2]⟩ marshall
          none none st2 = Except.ok out ∧
      out.sent = [⟨⟨c, [2], 0, none, none⟩,
        MsgBody.delta (Delta.new_element el)⟩]) := by
  constructor
  · simp [block]
  · intro st2
    refine ⟨⟨value_or_dg rv ⟨true, 0, false, Container.MAIN, []⟩,
      ⟨true, 1, true, c, [2]⟩,
      (enq ⟨⟨c, [2], 0, none, none⟩, MsgBody.delta (Delta.new_element el)⟩ st2).1,
      [⟨⟨c, [2], 0, none, none⟩, MsgBody.delta (Delta.new_element el)⟩]⟩,
      ?_, rfl⟩
    simp [enqueue_new_element_delta, hm, new_element_msg, hacc]

/-- Witness for C3 in the MAIN container with the list sink and the empty
marshaller. -/
theorem block_nesting_witness :
    block listEnq ⟨true, 2, true, Container.MAIN, []⟩ [] =
      ⟨DGReturn.handle ⟨true, 0, true, Container.MAIN, [2]⟩,
       ⟨true, 3, true, Container.MAIN, []⟩,
       (listEnq ⟨⟨Container.MAIN, [], 2, none, none⟩,
         MsgBody.delta Delta.new_block⟩ []).1,
       [⟨⟨Container.MAIN, [], 2, none, none⟩, MsgBody.delta Delta.new_block⟩]⟩ ∧
    (∃ out : OpOut (List ForwardMsg),
      enqueue_new_element_delta listEnq ⟨true, 0, true, Container.MAIN, [2]⟩
          empty_marshall none none [] = Except.ok out ∧
      out.sent = [⟨⟨Container.MAIN, [2], 0, none, none⟩,
        MsgBody.delta (Delta.new_element Element.empty)⟩]) := by
  obtain ⟨h1, h2⟩ :=
    block_nesting listEnq (fun _ _ => rfl) Container.MAIN []
      empty_marshall Element.empty Rv.pyNone rfl
  exact ⟨h1, h2 []⟩

/-- One new_element call on a sinked root handle against an accepting
sink: the envelope with the current counter goes to the sink, the counter
is incremented, container and path are untouched. -/
lemma enqueue_new_element_delta_root_step {σ : Type}
    (enq : ForwardMsg → σ → σ × Bool) (hacc : ∀ m s, (enq m s).2 = true)
    (marshall : Element → Except Err (Element × Rv)) (el : Element) (rv : Rv)
    (hm : marshall Element.unset = Except.ok (el, rv))
    (k : Nat) (c : Container) (p : List Nat) (st : σ) :
    enqueue_new_element_delta enq ⟨true, k, true, c, p⟩ marshall
        none none st =
      Except.ok
        ⟨value_or_dg rv ⟨true, k, false, Container.MAIN, []⟩,
         ⟨true, k + 1, true, c, p⟩,
         (enq (new_element_msg ⟨true, k, true, c, p⟩ el none none) st).1,
         [new_element_msg ⟨true, k, true, c, p⟩ el none none]⟩ := by
  simp [enqueue_new_element_delta, hm, hacc, new_element_msg]

/-- N new_element calls on a sinked root handle with counter k against an
accepting sink: the handle ends at counter k + n with its container and
path untouched, and the envelopes passed to the sink carry the delta ids
k, k+1, ..., k+n-1 in issuance order. -/
lemma run_new_elements_spec {σ : Type} (enq : ForwardMsg → σ → σ × Bool)
    (hacc : ∀ m s, (enq m s).2 = true)
    (marshall : Element → Except Err (Element × Rv)) (el : Element) (rv : Rv)
    (hm : marshall Element.unset = Except.ok (el, rv)) :
    ∀ (n k : Nat) (c : Container) (p : List Nat) (st : σ),
      ∃ (st2 : σ) (sent : List ForwardMsg),
        run_new_elements enq marshall n ⟨true, k, true, c, p⟩ st =
          Except.ok (⟨true, k + n, true, c, p⟩, st2, sent) ∧
        sent.map (fun m => m.metadata.delta_id) = List.range' k n := by
  intro n
  induction n with
  | zero =>
    intro k c p st
    exact ⟨st, [], by simp [run_new_elements], by simp⟩
  | succ n ih =>
    intro k c p st
    obtain ⟨st2, sent, hrun, hids⟩ := ih (k + 1) c p
      ((enq (new_element_msg ⟨true, k, true, c, p⟩ el none none) st).1)
    have hk : k + (n + 1) = (k + 1) + n := by omega
    refine ⟨st2, new_element_msg ⟨true, k, true, c, p⟩ el none none :: sent,
      ?_, ?_⟩
    · rw [hk]
      simp [run_new_elements,
        enqueue_new_element_delta_root_step enq hacc marshall el rv hm k c p st,
        hrun]
    · simp [hids, new_element_msg, List.range'_succ]

/-- Claim C1: on a fresh root handle whose sink accepts every message, N
sequential new_element calls pass to the sink envelopes whose delta ids
are 0, 1, ..., N-1 in issuance order and leave the counter at N; and
against a sink that reports a failed enqueue, the handle (hence its
counter) is left unchanged, so the counter is incremented only after a
successful enqueue. -/
theorem address_monotonicity {σ : Type} (enq : ForwardMsg → σ → σ × Bool)
    (hacc : ∀ m s, (enq m s).2 = true)
    (marshall : Element → Except Err (Element × Rv)) (el : Element) (rv : Rv)
    (hm : marshall Element.unset = Except.ok (el, rv))
    (n : Nat) (c : Container) (p : List Nat) (st : σ) :
    (∃ (dg2 : DeltaGenerator) (st2 : σ) (sent : List ForwardMsg),
      run_new_elements enq marshall n ⟨true, 0, true, c, p⟩ st =
        Except.ok (dg2, st2, sent) ∧
      sent.map (fun m => m.metadata.delta_id) = List.range n ∧
      dg2.id = n) ∧
    (∀ (enq2 : ForwardMsg → σ → σ × Bool), (∀ m s, (enq2 m s).2 = false) →
      ∀ (dg : DeltaGenerator) (st2 : σ), dg.hasSink = true →
        ∃ out : OpOut σ,
          enqueue_new_element_delta enq2 dg marshall none none st2 =
            Except.ok out ∧
          out.self = dg ∧ out.ret = value_or_dg rv dg) := by
  constructor
  · obtain ⟨st2, sent, hrun, hids⟩ :=
      run_new_elements_spec enq hacc marshall el rv hm n 0 c p st
    refine ⟨⟨true, 0 + n, true, c, p⟩, st2, sent, hrun, ?_, by simp⟩
    rw [hids, List.range_eq_range']
  · intro enq2 hrej dg st2 hsink
    refine ⟨⟨value_or_dg rv dg, dg,
      (enq2 (new_element_msg dg el none none) st2).1,
      [new_element_msg dg el none none]⟩, ?_, rfl, rfl⟩
    simp [enqueue_new_element_delta, hm, hrej, hsink, new_element_msg]

/-- Witness for C1: three new_element calls with the empty marshaller on a
fresh MAIN root against the list sink yield delta ids 0, 1, 2 and counter
3; one call against the rejecting sink leaves the handle unchanged. -/
theorem address_monotonicity_witness :
    (∃ (dg2 : DeltaGenerator) (st2 : List ForwardMsg)
        (sent : List ForwardMsg),
      run_new_elements listEnq empty_marshall 3
          ⟨true, 0, true, Container.MAIN, []⟩ [] =
        Except.ok (dg2, st2, sent) ∧
      sent.map (fun m => m.metadata.delta_id) = List.range 3 ∧
      dg2.id = 3) ∧
    (∃ out : OpOut (List ForwardMsg),
      enqueue_new_element_delta rejectEnq ⟨true, 0, true, Container.MAIN, []⟩
          empty_marshall none none [] = Except.ok out ∧
      out.self = ⟨true, 0, true, Container.MAIN, []⟩ ∧
      out.ret = value_or_dg Rv.pyNone ⟨true, 0, true, Container.MAIN, []⟩) := by
  obtain ⟨h1, h2⟩ :=
    address_monotonicity listEnq (fun _ _ => rfl) empty_marshall
      Element.empty Rv.pyNone rfl 3 Container.MAIN [] []
  exact ⟨h1, h2 rejectEnq (fun _ _ => rfl) ⟨true, 0, true, Container.MAIN, []⟩
    [] rfl⟩

/-- The delta ids of the Delta messages of a list, in order. -/
def delta_ids (ms : List ForwardMsg) : List Nat :=
  ms.filterMap (fun m =>
    match m.body with
    | MsgBody.delta _ => some m.metadata.delta_id
    | _ => none)

/-- How many Delta messages a list holds. -/
def count_deltas : List ForwardMsg → Nat
  | [] => 0
  | m :: rest =>
    (match m.body with
     | MsgBody.delta _ => 1
     | _ => 0) + count_deltas rest

/-- The payload messages of an export artifact list, in order. -/
def pb_msgs (out : List (String × FileContent)) : List ForwardMsg :=
  out.filterMap (fun p =>
    match p.2 with
    | FileContent.pb m => some m
    | FileContent.manifest _ => none)

/-- Whether an export pair is the manifest pair. -/
def is_manifest_pair (p : String × FileContent) : Bool :=
  match p.2 with
  | FileContent.manifest _ => true
  | FileContent.pb _ => false

lemma renumber_deltas_bodies (ms : List ForwardMsg) : ∀ idx fdi nd : Nat,
    (renumber_deltas ms idx fdi nd).1.map ForwardMsg.body =
      ms.map ForwardMsg.body := by
  induction ms with
  | nil => intro idx fdi nd; rfl
  | cons m rest ih =>
    intro idx fdi nd
    cases hb : m.body <;> simp [renumber_deltas, hb, ih]

lemma renumber_deltas_ids (ms : List ForwardMsg) : ∀ idx fdi nd : Nat,
    delta_ids (renumber_deltas ms idx fdi nd).1 =
      List.range' nd (count_deltas ms) := by
  induction ms with
  | nil => intro idx fdi nd; rfl
  | cons m rest ih =>
    intro idx fdi nd
    simp only [delta_ids] at ih ⊢
    cases hb : m.body <;>
      simp [renumber_deltas, hb, count_deltas, ih]
    rw [Nat.add_comm 1 (count_deltas rest), List.range'_succ]

lemma pb_msgs_message_tuples (rid : String) (ms : List ForwardMsg) :
    ∀ idx : Nat, pb_msgs (message_tuples_from rid idx ms) = ms := by
  induction ms with
  | nil => intro idx; rfl
  | cons m rest ih =>
    intro idx
    simp [message_tuples_from, pb_msgs] at ih ⊢
    exact ih (idx + 1)

lemma countP_manifest_message_tuples (rid : String) (ms : List ForwardMsg) :
    ∀ idx : Nat,
      (message_tuples_from rid idx ms).countP is_manifest_pair = 0 := by
  induction ms with
  | nil => intro idx; rfl
  | cons m rest ih =>
    intro idx
    simp [message_tuples_from, List.countP_cons, is_manifest_pair, ih]

lemma should_save_not_empty (m : ForwardMsg)
    (h : should_save_report_msg m = true) :
    m.body ≠ MsgBody.delta (Delta.new_element Element.empty) := by
  intro hb
  rw [should_save_report_msg, hb] at h
  simp at h

/-- Claim C4: for every master-queue content, the final-report export
keeps exactly the messages should_save_report_msg keeps (in particular no
NewElement delta with the empty placeholder payload survives), preserves
their relative order, renumbers the surviving Delta messages' delta ids
contiguously from 0, and returns exactly one manifest pair, positioned
last. -/
theorem export_filter_renumber (q : List ForwardMsg) (rid nm : String)
    (port : Nat) :
    (pb_msgs (serialize_final_report_to_files rid nm port q)).map
        ForwardMsg.body =
      (q.filter should_save_report_msg).map ForwardMsg.body ∧
    (∀ m ∈ pb_msgs (serialize_final_report_to_files rid nm port q),
      m.body ≠ MsgBody.delta (Delta.new_element Element.empty)) ∧
    delta_ids (pb_msgs (serialize_final_report_to_files rid nm port q)) =
      List.range (count_deltas (q.filter should_save_report_msg)) ∧
    (serialize_final_report_to_files rid nm port q).countP
        is_manifest_pair = 1 ∧
    (∃ man : Manifest,
      (serialize_final_report_to_files rid nm port q).getLast? =
        some ("reports/" ++ rid ++ "/manifest.json",
          FileContent.manifest man)) := by
  have hpb : pb_msgs (serialize_final_report_to_files rid nm port q) =
      (renumber_deltas (q.filter should_save_report_msg) 0 0 0).1 := by
    simp [serialize_final_report_to_files, pb_msgs, List.filterMap_append]
    have h1 := pb_msgs_message_tuples rid
      (renumber_deltas (q.filter should_save_report_msg) 0 0 0).1 0
    simp [pb_msgs] at h1
    simp [h1]
  refine ⟨?_, ?_, ?_, ?_, ?_⟩
  · rw [hpb]
    exact renumber_deltas_bodies (q.filter should_save_report_msg) 0 0 0
  · intro m hm hbody
    have hbodies : m.body ∈ (pb_msgs
        (serialize_final_report_to_files rid nm port q)).map ForwardMsg.body :=
      List.mem_map_of_mem ForwardMsg.body hm
    rw [hpb, renumber_deltas_bodies] at hbodies
    obtain ⟨m2, hm2, hb2⟩ := List.mem_map.mp hbodies
    have hs2 : should_save_report_msg m2 = true :=
      (List.mem_filter.mp hm2).2
    exact should_save_not_empty m2 hs2 (hb2.trans hbody)
  · rw [hpb, renumber_deltas_ids, List.range_eq_range']
  · rw [serialize_final_report_to_files]
    simp [List.countP_append, countP_manifest_message_tuples,
      List.countP_cons, is_manifest_pair]
  · rw [serialize_final_report_to_files]
    exact ⟨_, List.getLast?_concat _⟩

lemma run_master_initial (ops : List ReportOp) : ∀ r : Report,
    (Report.run r ops).master_queue.initial =
      (match r.master_queue.initial with
       | some m => some m
       | none => first_enqueued ops) := by
  induction ops with
  | nil =>
    intro r
    cases hi : r.master_queue.initial <;> simp [Report.run, first_enqueued, hi]
  | cons op ops ih =>
    intro r
    cases op with
    | enq msg =>
      have hrun : Report.run r (ReportOp.enq msg :: ops) =
          Report.run (r.enqueue msg) ops := rfl
      rw [hrun, ih]
      cases hi : r.master_queue.initial <;>
        simp [Report.enqueue, ReportQueue.enqueue, hi, first_enqueued]
    | clear =>
      have hrun : Report.run r (ReportOp.clear :: ops) =
          Report.run r.clear ops := rfl
      have hclear : r.clear.master_queue.initial = r.master_queue.initial := by
        cases hi : r.master_queue.initial <;>
          simp [Report.clear, ReportQueue.get_initial_msg, ReportQueue.clear,
            ReportQueue.enqueue, hi]
      rw [hrun, ih, hclear]
      cases hi : r.master_queue.initial <;> simp [first_enqueued]

/-- Claim C6: after Session clear() the browser queue is empty; the master
queue holds exactly the first message ever enqueued over the session's
history when there is one and is empty otherwise; and that initial
message is still known to the master queue after the clear, whatever
clears the history already contained. -/
theorem clear_preserves_initial (ops : List ReportOp) :
    ((Report.run Report.empty ops).clear).browser_queue.messages = [] ∧
    ((Report.run Report.empty ops).clear).master_queue.messages =
      (match first_enqueued ops with
       | some m => [m]
       | none => []) ∧
    ((Report.run Report.empty ops).clear).master_queue.get_initial_msg =
      first_enqueued ops := by
  have hi : (Report.run Report.empty ops).master_queue.initial =
      first_enqueued ops := by
    rw [run_master_initial ops Report.empty]
    simp [Report.empty, ReportQueue.empty]
  refine ⟨rfl, ?_, ?_⟩
  · cases hf : first_enqueued ops with
    | none =>
      simp [Report.clear, ReportQueue.get_initial_msg, ReportQueue.clear,
        ReportQueue.enqueue, hi, hf]
    | some m =>
      simp [Report.clear, ReportQueue.get_initial_msg, ReportQueue.clear,
        ReportQueue.enqueue, hi, hf]
      cases msg_address m <;> rfl
  · cases hf : first_enqueued ops <;>
      simp [Report.clear, ReportQueue.get_initial_msg, ReportQueue.clear,
        ReportQueue.enqueue, hi, hf]

end Streamlit







